import Mathlib

/-!
Formal model of the x11 swapchain presentation engine of the vulkan-wsi-layer
repository (src/wsi/x11: swapchain.cpp, dri3_presenter.cpp / .hpp,
wayland_bypass.cpp / .hpp).

Each definition is a shallow embedding of the corresponding C++ function.
Machine integers are modelled as Nat / Int with explicit wrap where the
source type makes overflow observable (uint32_t counters). Fallible calls
return Option or a VkResult paired with an Option payload. Stateful code is
modelled by explicit state passing; the event traces of teardown code are
modelled as lists of events.
-/

/-- Subset of VkResult values returned by the modelled code paths. -/
inductive VkResult where
  | VK_SUCCESS
  | VK_NOT_READY
  | VK_TIMEOUT
  | VK_ERROR_OUT_OF_DATE_KHR
  | VK_ERROR_SURFACE_LOST_KHR
  | VK_ERROR_INITIALIZATION_FAILED
  | VK_ERROR_OUT_OF_HOST_MEMORY
  deriving DecidableEq, Repr

/-- Swapchain image status values (FREE / ACQUIRED / PRESENTED / INVALID), as
used by swapchain.cpp via the wsi swapchain base. -/
inductive ImageStatus where
  | FREE
  | ACQUIRED
  | PRESENTED
  | INVALID
  deriving DecidableEq, Repr

/-- Presenter variants of the x11 swapchain (enum presenter_type). -/
inductive presenter_type where
  | SHM
  | DRI3
  | WAYLAND_BYPASS
  deriving DecidableEq, Repr

/-- Modelled from the spec: BYPASS_DEFER_FRAMES is declared in swapchain.hpp,
which is not among the available sources; the spec fixes DEFER_FRAMES = 2 and
swapchain.cpp iterates the ring with index bound BYPASS_DEFER_FRAMES and
advances the head modulo BYPASS_DEFER_FRAMES. -/
def BYPASS_DEFER_FRAMES : Nat := 2

/-- Deferred-release flag computed in swapchain::init_platform, line 367:
m_bypass_deferred_release = (presenter is WAYLAND_BYPASS or DRI3). -/
def deferred_release_enabled (p : presenter_type) : Bool :=
  p == presenter_type.WAYLAND_BYPASS || p == presenter_type.DRI3

/-- State touched by the deferred-release logic of swapchain::present_image:
the ring slots (m_bypass_deferred, entries are image indices or the sentinel
-1), the rotating head (m_bypass_defer_head) and the send counter
(m_send_sbc). -/
structure PresentState where
  bypass_deferred : List Int
  bypass_defer_head : Nat
  send_sbc : Nat
  deriving DecidableEq, Repr

/-- Modelled from the spec: the initial ring contents (all sentinel) and head
value 0 are the field initialisers in swapchain.hpp, which is not among the
available sources; the spec states that ring entries are a valid image index
or a sentinel, and swapchain.cpp resets drained slots to -1. m_send_sbc is
initialised to 0 in the swapchain constructor (swapchain.cpp line 78). -/
def init_present_state : PresentState :=
  { bypass_deferred := [-1, -1], bypass_defer_head := 0, send_sbc := 0 }

/-- Image indices released to the free pool for a ring slot value: the slot is
released exactly when it is non-sentinel (greater than or equal to 0). -/
def freed_of (v : Int) : List Nat := if 0 ≤ v then [v.toNat] else []

/-- One call of swapchain::present_image (swapchain.cpp lines 888-957) on the
zero-copy paths, abstracted over the presenter result. Returns the new state
and the list of image indices returned to the free pool (unpresent_image
calls) during the call. The send counter is incremented first (line 888); on
presenter success with the deferred-release flag set, the slot at the ring
head is released if non-sentinel, the presented index is written there and
the head advances modulo BYPASS_DEFER_FRAMES (lines 900-911 and 930-937); on
success with the flag clear, and on presenter failure, the presented image is
released immediately (lines 913-916, 919-922, 938-941, 943-947). -/
def present_image_step (deferred_release : Bool) (s : PresentState)
    (image_index : Nat) (present_result : VkResult) : PresentState × List Nat :=
  let s1 : PresentState := { s with send_sbc := s.send_sbc + 1 }
  if present_result = VkResult.VK_SUCCESS then
    if deferred_release then
      let oldest := s1.bypass_deferred.getD s1.bypass_defer_head (-1)
      ({ s1 with
          bypass_deferred :=
            s1.bypass_deferred.set s1.bypass_defer_head (Int.ofNat image_index),
          bypass_defer_head := (s1.bypass_defer_head + 1) % BYPASS_DEFER_FRAMES },
       freed_of oldest)
    else
      (s1, [image_index])
  else
    (s1, [image_index])

/-- A run of successful presents with the deferred-release flag fixed:
returns the final state and the per-present lists of freed image indices. -/
def present_run (deferred_release : Bool) (s : PresentState) :
    List Nat → PresentState × List (List Nat)
  | [] => (s, [])
  | i :: rest =>
    ((present_run deferred_release
        (present_image_step deferred_release s i VkResult.VK_SUCCESS).1 rest).1,
     (present_image_step deferred_release s i VkResult.VK_SUCCESS).2 ::
       (present_run deferred_release
          (present_image_step deferred_release s i VkResult.VK_SUCCESS).1 rest).2)

/-- One observation of the shared state made by a get_free_buffer wait loop
iteration: the image status array at the loop-condition check, the event pump
run flag (m_present_event_thread_run), and whether the timed wait of this
iteration reported cv_status timeout (finite-deadline case only). -/
structure WaitObs where
  statuses : List ImageStatus
  thread_run : Bool
  wait_timed_out : Bool
  deriving DecidableEq, Repr

/-- swapchain::free_image_found (swapchain.cpp lines 969-979): true when some
swapchain image has status FREE. -/
def free_image_found (statuses : List ImageStatus) : Bool :=
  statuses.any (fun st => st == ImageStatus.FREE)

def UINT64_MAX : Nat := 2 ^ 64 - 1

/-- Wait loop of swapchain::get_free_buffer (swapchain.cpp lines 989-1013)
over a trace of observations; blocking selects the UINT64_MAX variant (no
deadline). Per iteration: exit with success when a FREE image is seen;
otherwise return VK_ERROR_OUT_OF_DATE_KHR when the run flag is cleared; in
the finite-deadline variant return VK_TIMEOUT when the timed wait reports
timeout; otherwise keep waiting. none means the trace ended with the loop
still waiting. -/
def get_free_buffer_loop (blocking : Bool) : List WaitObs → Option VkResult
  | [] => none
  | o :: rest =>
    if free_image_found o.statuses then some VkResult.VK_SUCCESS
    else if !o.thread_run then some VkResult.VK_ERROR_OUT_OF_DATE_KHR
    else if !blocking && o.wait_timed_out then some VkResult.VK_TIMEOUT
    else get_free_buffer_loop blocking rest

/-- swapchain::get_free_buffer (swapchain.cpp lines 981-1017). Takes the
timeout argument and the trace of loop observations; returns the VkResult
together with the timeout value left in the caller variable (the code writes
0 into it exactly on the success exit of the waiting variants; the poll
variant returns before that write, leaving the value 0 it was given). -/
def get_free_buffer (timeout : Nat) (trace : List WaitObs) :
    Option (VkResult × Nat) :=
  if timeout = 0 then
    match trace with
    | [] => none
    | o :: _ =>
      some (if free_image_found o.statuses then VkResult.VK_SUCCESS
            else VkResult.VK_NOT_READY, timeout)
  else
    (get_free_buffer_loop (timeout = UINT64_MAX) trace).map
      (fun r => (r, if r = VkResult.VK_SUCCESS then 0 else timeout))

/-- State of the DRI3 presenter: m_present_serial, a uint32_t counter
(dri3_presenter.hpp line 91). -/
structure Dri3PresState where
  present_serial : Nat
  deriving DecidableEq, Repr

def XCB_PIXMAP_NONE : Nat := 0

/-- dri3_presenter::present_image (dri3_presenter.cpp lines 257-289). The
serial argument is explicitly discarded by the source ((void)serial, line
259). With a connection and a valid pixmap, m_present_serial is incremented
(uint32_t wrap) and carried by the xcb_present_pixmap request; the third
component is the serial carried by the submitted request, none when no
request was submitted. -/
def dri3_present_image (st : Dri3PresState) (has_connection : Bool)
    (pixmap : Nat) (serial : Nat) : Dri3PresState × VkResult × Option Nat :=
  let _ := serial
  if !has_connection || pixmap == XCB_PIXMAP_NONE then
    (st, VkResult.VK_ERROR_SURFACE_LOST_KHR, none)
  else
    ({ present_serial := (st.present_serial + 1) % 2 ^ 32 },
     VkResult.VK_SUCCESS, some ((st.present_serial + 1) % 2 ^ 32))

/-- Swapchain-side counter state for DRI3 presents: m_send_sbc plus the
presenter state. -/
structure SbcState where
  send_sbc : Nat
  dri3 : Dri3PresState
  deriving DecidableEq, Repr

/-- The DRI3 arm of swapchain::present_image restricted to the counters
(swapchain.cpp lines 888-889 and 924-926): m_send_sbc is incremented, its
uint32_t truncation is passed as the serial argument, and the presenter is
invoked (the swapchain connection is established at init, so has_connection
is true). Returns the new state, the presenter result and the serial carried
by the submitted request, if any. -/
def swapchain_dri3_present (s : SbcState) (pixmap : Nat) :
    SbcState × VkResult × Option Nat :=
  let sbc := s.send_sbc + 1
  let serial := sbc % 2 ^ 32
  let r := dri3_present_image s.dri3 true pixmap serial
  ({ send_sbc := sbc, dri3 := r.1 }, r.2.1, r.2.2)

/-- Preferred-presenter values of swapchain::init_platform (swapchain.cpp
line 155). -/
inductive preferred_presenter where
  | AUTO
  | BYPASS
  | DRI3
  | SHM
  deriving DecidableEq, Repr

/-- One percent-s conversion of sscanf with a width limit: skip leading
whitespace, then read at most width non-whitespace characters. Returns the
token and the unread remainder of the line. -/
def take_field (width : Nat) (cs : List Char) : List Char × List Char :=
  let rest := cs.dropWhile Char.isWhitespace
  let tok := (rest.takeWhile (fun c => !c.isWhitespace)).take width
  (tok, rest.drop tok.length)

/-- sscanf(line, percent-255s percent-63s, app, pres) == 2 (swapchain.cpp
line 194): both conversions must produce a nonempty token. -/
def sscanf_app_pres (line : List Char) : Option (List Char × List Char) :=
  let f1 := take_field 255 line
  if f1.1.isEmpty then none
  else
    let f2 := take_field 63 f1.2
    if f2.1.isEmpty then none
    else some (f1.1, f2.1)

/-- Line skip of the config reader (swapchain.cpp line 191): the raw fgets
line is skipped when its first character is a hash or a newline. Lines are
modelled without the trailing newline, so a raw line consisting of just a
newline is the empty list. -/
def config_line_skipped (line : List Char) : Bool :=
  match line with
  | [] => true
  | c :: _ => c == '#'

/-- Update of preferred on a matched config line (swapchain.cpp lines
198-203): bypass / dri3 / shm set the preference; any other token leaves it
unchanged (the loop still breaks on the match). -/
def presenter_of_token (pres : List Char) (pref : preferred_presenter) :
    preferred_presenter :=
  if pres = "bypass".toList then preferred_presenter.BYPASS
  else if pres = "dri3".toList then preferred_presenter.DRI3
  else if pres = "shm".toList then preferred_presenter.SHM
  else pref

/-- Per-file line loop of the config reader (swapchain.cpp lines 189-208):
lines are scanned in order; the first line parsing to two tokens whose first
token equals the process name decides (break), updating preferred when the
second token is recognized; all other lines are skipped. -/
def scan_config_file (proc_name : List Char) (pref : preferred_presenter) :
    List (List Char) → preferred_presenter
  | [] => pref
  | line :: rest =>
    if config_line_skipped line then scan_config_file proc_name pref rest
    else
      match sscanf_app_pres line with
      | none => scan_config_file proc_name pref rest
      | some ap =>
        if ap.1 = proc_name then presenter_of_token ap.2 pref
        else scan_config_file proc_name pref rest

/-- File loop of the config reader (swapchain.cpp lines 183-212): each path
in order; a file that fails to open (none) is skipped; after scanning an
existing file the loop breaks only when preferred is no longer AUTO. -/
def config_override_scan (proc_name : List Char) (pref : preferred_presenter) :
    List (Option (List (List Char))) → preferred_presenter
  | [] => pref
  | none :: rest => config_override_scan proc_name pref rest
  | some lines :: rest =>
    let p := scan_config_file proc_name pref lines
    if p ≠ preferred_presenter.AUTO then p
    else config_override_scan proc_name p rest

/-- Configuration-override phase of swapchain::init_platform (swapchain.cpp
lines 158-214): with an empty process name the config files are not
consulted; otherwise the files are scanned in order starting from AUTO. -/
def config_override (proc_name : List Char)
    (files : List (Option (List (List Char)))) : preferred_presenter :=
  if proc_name.isEmpty then preferred_presenter.AUTO
  else config_override_scan proc_name preferred_presenter.AUTO files

/-- Substring test of strstr: true when needle occurs contiguously in the
haystack. -/
def list_contains_sub (needle : List Char) : List Char → Bool
  | [] => needle == []
  | c :: rest => needle.isPrefixOf (c :: rest) || list_contains_sub needle rest

def zink_signature : List Char := "zink_dri.so".toList

/-- Scan of /proc/self/maps (swapchain.cpp lines 228-241): true when some
line contains the substring zink_dri.so; an unopenable file (none) yields
false. -/
def maps_has_zink (maps : Option (List (List Char))) : Bool :=
  match maps with
  | none => false
  | some lines => lines.any (fun l => list_contains_sub zink_signature l)

/-- Zink auto-detection (swapchain.cpp lines 218-242): the environment
variable MESA_LOADER_DRIVER_OVERRIDE equal to zink short-circuits; otherwise
/proc/self/maps is scanned. -/
def detect_is_zink (driver : Option (List Char))
    (maps : Option (List (List Char))) : Bool :=
  match driver with
  | some d => if d = "zink".toList then true else maps_has_zink maps
  | none => maps_has_zink maps

/-- Auto-detect phase result (swapchain.cpp lines 243-252): BYPASS when Zink
was detected, DRI3 otherwise. -/
def auto_detect_preference (driver : Option (List Char))
    (maps : Option (List (List Char))) : preferred_presenter :=
  if detect_is_zink driver maps then preferred_presenter.BYPASS
  else preferred_presenter.DRI3

/-- Preference computed by phases 1 and 2 of swapchain::init_platform: the
config override when one was taken, the auto-detect result otherwise. -/
def select_preference (proc_name : List Char)
    (files : List (Option (List (List Char)))) (driver : Option (List Char))
    (maps : Option (List (List Char))) : preferred_presenter :=
  let p := config_override proc_name files
  if p ≠ preferred_presenter.AUTO then p
  else auto_detect_preference driver maps

/-- Backend-specific presentation artifact of a swapchain image: the DRI3
pixmap id or the Wayland wl_buffer handle, 0 when absent (XCB_PIXMAP_NONE /
null). -/
structure ImageData where
  artifact : Nat
  deriving DecidableEq, Repr

/-- Observable per-image state acted on by swapchain::destroy_image: the
status, the Vulkan image handle (0 models VK_NULL_HANDLE) and the optional
image data. -/
structure ImageState where
  status : ImageStatus
  image : Nat
  data : Option ImageData
  deriving DecidableEq, Repr

/-- Events emitted during swapchain teardown. -/
inductive TdEvent where
  | stop_event_pump
  | unpresent (idx : Nat)
  | destroy_vk_image (idx : Nat)
  | destroy_artifact (idx : Nat)
  | free_image_data (idx : Nat)
  deriving DecidableEq, Repr

/-- swapchain::destroy_image (swapchain.cpp lines 1019-1058): when the status
is not INVALID, the Vulkan image handle is destroyed (if non-null) and nulled
and the status set to INVALID; then, when image data is present, the backend
artifact is destroyed (if present: xcb_free_pixmap for a DRI3 pixmap,
wl_buffer_destroy for a bypass buffer), the data object is freed and the data
pointer nulled. Returns the new image state and the emitted events in
program order. -/
def destroy_image (idx : Nat) (img : ImageState) : ImageState × List TdEvent :=
  let step1 : ImageState × List TdEvent :=
    if img.status ≠ ImageStatus.INVALID then
      if img.image ≠ 0 then
        ({ img with image := 0, status := ImageStatus.INVALID },
         [TdEvent.destroy_vk_image idx])
      else
        ({ img with status := ImageStatus.INVALID }, [])
    else (img, [])
  match step1.1.data with
  | some d =>
    ({ step1.1 with data := none },
     step1.2 ++ (if d.artifact ≠ 0 then [TdEvent.destroy_artifact idx] else [])
       ++ [TdEvent.free_image_data idx])
  | none => step1

/-- Ring drain of the swapchain destructor (swapchain.cpp lines 101-109):
every non-sentinel slot is released via unpresent_image, in slot order. -/
def drain_deferred_ring (ring : List Int) : List TdEvent :=
  ring.filterMap (fun v => if 0 ≤ v then some (TdEvent.unpresent v.toNat) else none)

/-- Modelled from the spec: the base teardown called at the end of the
destructor (swapchain.cpp line 118) lives in the wsi swapchain base, which is
not among the available sources; per the spec it destroys every swapchain
image, which it does through the destroy_image override modelled above. -/
def teardown_images (imgs : List ImageState) : List TdEvent :=
  (imgs.enum.map (fun p => (destroy_image p.1 p.2).2)).flatten

/-- Event trace of the swapchain destructor (swapchain.cpp lines 86-119):
stop (and join) the event pump, release every non-sentinel slot of the
deferred-release ring, then the base teardown destroys each image. -/
def swapchain_destructor_trace (ring : List Int) (imgs : List ImageState) :
    List TdEvent :=
  TdEvent.stop_event_pump :: (drain_deferred_ring ring ++ teardown_images imgs)

def DRM_FORMAT_ARGB8888 : Nat := 0x34325241
def DRM_FORMAT_XRGB8888 : Nat := 0x34325258
def DRM_FORMAT_ABGR8888 : Nat := 0x34324241
def DRM_FORMAT_XBGR8888 : Nat := 0x34324258

/-- Fourcc remapping of wayland_bypass::create_image_resources
(wayland_bypass.cpp lines 353-357): ARGB8888 becomes XRGB8888 and ABGR8888
becomes XBGR8888, by two successive conditionals on the running value. -/
def remap_bypass_fourcc (fourcc : Nat) : Nat :=
  let f1 := if fourcc = DRM_FORMAT_ARGB8888 then DRM_FORMAT_XRGB8888 else fourcc
  if f1 = DRM_FORMAT_ABGR8888 then DRM_FORMAT_XBGR8888 else f1

/-- Arguments passed to zwp_linux_buffer_params_v1 add and create_immed by
wayland_bypass::create_image_resources. -/
structure WlBufferParams where
  fd : Int
  plane_idx : Nat
  offset : Nat
  stride : Nat
  modifier_hi : Nat
  modifier_lo : Nat
  width : Nat
  height : Nat
  fourcc : Nat
  flags : Nat
  deriving DecidableEq, Repr

/-- wayland_bypass::create_image_resources (wayland_bypass.cpp lines
333-382), restricted to the buffer-creation request it emits: fails when the
image has no DMA-BUF fd; otherwise one plane is added with the fd, plane
index 0, offset, stride and the 64-bit modifier split into 32-bit halves, and
the buffer is created with width, height, the remapped fourcc and flags 0. -/
def wayland_create_image_resources (dma_buf_fd : Int) (offset stride : Nat)
    (width height fourcc modifier : Nat) : VkResult × Option WlBufferParams :=
  if dma_buf_fd < 0 then (VkResult.VK_ERROR_INITIALIZATION_FAILED, none)
  else
    (VkResult.VK_SUCCESS,
     some { fd := dma_buf_fd, plane_idx := 0, offset := offset, stride := stride,
            modifier_hi := modifier / 2 ^ 32, modifier_lo := modifier % 2 ^ 32,
            width := width, height := height,
            fourcc := remap_bypass_fourcc fourcc, flags := 0 })

/-! Helper lemmas. -/

/-- Zink detection unfolds to a disjunction of the environment check and the
maps scan. -/
theorem detect_is_zink_iff (driver : Option (List Char))
    (maps : Option (List (List Char))) :
    detect_is_zink driver maps = true ↔
      (driver = some "zink".toList ∨ maps_has_zink maps = true) := by
  cases driver with
  | none => simp [detect_is_zink]
  | some d =>
    by_cases hd : d = "zink".toList
    · subst hd; simp [detect_is_zink]
    · simp [detect_is_zink, hd]

/-- The blocking wait loop never produces VK_TIMEOUT. -/
theorem get_free_buffer_loop_blocking_no_timeout (tr : List WaitObs) :
    get_free_buffer_loop true tr ≠ some VkResult.VK_TIMEOUT := by
  induction tr with
  | nil => simp [get_free_buffer_loop]
  | cons o rest ih =>
    simp only [get_free_buffer_loop]
    split_ifs <;> simp_all

/-! Claim theorems. -/

/-- C2: when the active presenter reports a non-success result, the failing
image is released to the free pool immediately during that present call, and
the deferred-release ring contents and head are left unchanged (only the
send counter advances). -/
theorem C2_failed_present_immediate_release (deferred : Bool) (s : PresentState)
    (idx : Nat) (r : VkResult) (hr : r ≠ VkResult.VK_SUCCESS) :
    present_image_step deferred s idx r =
      ({ s with send_sbc := s.send_sbc + 1 }, [idx]) := by
  simp [present_image_step, hr]

/-- Witness for C2 at a concrete failing present. -/
theorem C2_failed_present_immediate_release_witness :
    present_image_step true { bypass_deferred := [3, -1], bypass_defer_head := 1,
                              send_sbc := 4 } 2 VkResult.VK_ERROR_SURFACE_LOST_KHR =
      ({ bypass_deferred := [3, -1], bypass_defer_head := 1, send_sbc := 5 }, [2]) :=
  C2_failed_present_immediate_release true
    { bypass_deferred := [3, -1], bypass_defer_head := 1, send_sbc := 4 } 2
    VkResult.VK_ERROR_SURFACE_LOST_KHR (by decide)

/-- C10: get_free_buffer with timeout 0 decides its result solely from the
image-status array seen at entry: VK_SUCCESS when some image is FREE,
VK_NOT_READY otherwise; the run flag, the rest of the trace and the timed
wait flag are irrelevant, so the poll case never yields
VK_ERROR_OUT_OF_DATE_KHR, and the timeout value handed back to the caller is
the unchanged 0. -/
theorem C10_poll_decides_from_statuses_only :
    ∀ (statuses : List ImageStatus) (run w run2 w2 : Bool)
      (tr tr2 : List WaitObs),
      get_free_buffer 0 ({ statuses := statuses, thread_run := run,
                           wait_timed_out := w } :: tr) =
        some (if free_image_found statuses then VkResult.VK_SUCCESS
              else VkResult.VK_NOT_READY, 0) ∧
      get_free_buffer 0 ({ statuses := statuses, thread_run := run,
                           wait_timed_out := w } :: tr) =
        get_free_buffer 0 ({ statuses := statuses, thread_run := run2,
                             wait_timed_out := w2 } :: tr2) := by
  intro statuses run w run2 w2 tr tr2
  constructor <;> simp [get_free_buffer]

/-- C3: get_free_buffer honors its timeout argument: timeout 0 polls (success
exactly when some image is FREE, VK_NOT_READY otherwise); timeout UINT64_MAX
blocks (exits with success on a FREE image, returns
VK_ERROR_OUT_OF_DATE_KHR when the event-pump run flag is observed cleared
while no image is FREE, keeps waiting otherwise and never yields
VK_TIMEOUT); any other timeout waits with a deadline and returns VK_TIMEOUT
when the timed wait reports that the deadline passed with no FREE image. -/
theorem C3_get_free_buffer_timeout_semantics :
    (∀ (o : WaitObs) (tr : List WaitObs),
       get_free_buffer 0 (o :: tr) =
         some (if free_image_found o.statuses then VkResult.VK_SUCCESS
               else VkResult.VK_NOT_READY, 0)) ∧
    (∀ (o : WaitObs) (tr : List WaitObs), free_image_found o.statuses = true →
       get_free_buffer UINT64_MAX (o :: tr) = some (VkResult.VK_SUCCESS, 0)) ∧
    (∀ (o : WaitObs) (tr : List WaitObs), free_image_found o.statuses = false →
       o.thread_run = false →
       get_free_buffer UINT64_MAX (o :: tr) =
         some (VkResult.VK_ERROR_OUT_OF_DATE_KHR, UINT64_MAX)) ∧
    (∀ (o : WaitObs) (tr : List WaitObs), free_image_found o.statuses = false →
       o.thread_run = true →
       get_free_buffer_loop true (o :: tr) = get_free_buffer_loop true tr) ∧
    (∀ tr : List WaitObs,
       get_free_buffer_loop true tr ≠ some VkResult.VK_TIMEOUT) ∧
    (∀ (t : Nat) (o : WaitObs) (tr : List WaitObs), t ≠ 0 → t ≠ UINT64_MAX →
       free_image_found o.statuses = false → o.thread_run = true →
       o.wait_timed_out = true →
       get_free_buffer t (o :: tr) = some (VkResult.VK_TIMEOUT, t)) ∧
    (∀ (t : Nat) (o : WaitObs) (tr : List WaitObs), t ≠ 0 →
       free_image_found o.statuses = true →
       get_free_buffer t (o :: tr) = some (VkResult.VK_SUCCESS, 0)) := by
  refine ⟨?_, ?_, ?_, ?_, get_free_buffer_loop_blocking_no_timeout, ?_, ?_⟩
  · intro o tr; simp [get_free_buffer]
  · intro o tr hfree
    simp [get_free_buffer, get_free_buffer_loop, hfree, UINT64_MAX]
  · intro o tr hfree hrun
    simp [get_free_buffer, get_free_buffer_loop, hfree, hrun, UINT64_MAX]
  · intro o tr hfree hrun
    simp [get_free_buffer_loop, hfree, hrun]
  · intro t o tr ht htmax hfree hrun hto
    simp [get_free_buffer, get_free_buffer_loop, hfree, hrun, hto, ht, htmax]
  · intro t o tr ht hfree
    simp [get_free_buffer, get_free_buffer_loop, hfree, ht]

/-- Witness for C3 at concrete traces: a poll with a FREE image, a blocking
wait observing the run flag cleared, and a finite wait whose deadline
passes. -/
theorem C3_get_free_buffer_timeout_semantics_witness :
    get_free_buffer 0 ({ statuses := [ImageStatus.FREE], thread_run := true,
                         wait_timed_out := false } :: []) =
      some (VkResult.VK_SUCCESS, 0) ∧
    get_free_buffer UINT64_MAX ({ statuses := [ImageStatus.PRESENTED],
                                  thread_run := false,
                                  wait_timed_out := false } :: []) =
      some (VkResult.VK_ERROR_OUT_OF_DATE_KHR, UINT64_MAX) ∧
    get_free_buffer 100 ({ statuses := [ImageStatus.PRESENTED],
                           thread_run := true, wait_timed_out := true } :: []) =
      some (VkResult.VK_TIMEOUT, 100) := by
  refine ⟨?_, ?_, ?_⟩
  · have := C3_get_free_buffer_timeout_semantics.1
      { statuses := [ImageStatus.FREE], thread_run := true,
        wait_timed_out := false } []
    simpa using this
  · exact C3_get_free_buffer_timeout_semantics.2.2.1
      { statuses := [ImageStatus.PRESENTED], thread_run := false,
        wait_timed_out := false } [] (by decide) (by decide)
  · exact C3_get_free_buffer_timeout_semantics.2.2.2.2.2.1 100
      { statuses := [ImageStatus.PRESENTED], thread_run := true,
        wait_timed_out := true } [] (by decide) (by decide) (by decide)
      (by decide) (by decide)

/-- C6: with no configuration override taken, the selector prefers BYPASS
exactly when MESA_LOADER_DRIVER_OVERRIDE equals zink or some line of
/proc/self/maps contains the substring zink_dri.so, and DRI3 otherwise. -/
theorem C6_auto_detect_zink_preference (proc_name : List Char)
    (files : List (Option (List (List Char)))) (driver : Option (List Char))
    (maps : Option (List (List Char)))
    (hcfg : config_override proc_name files = preferred_presenter.AUTO) :
    (select_preference proc_name files driver maps = preferred_presenter.BYPASS ↔
       (driver = some "zink".toList ∨ maps_has_zink maps = true)) ∧
    (select_preference proc_name files driver maps = preferred_presenter.DRI3 ↔
       ¬ (driver = some "zink".toList ∨ maps_has_zink maps = true)) := by
  have hsel : select_preference proc_name files driver maps =
      auto_detect_preference driver maps := by
    simp [select_preference, hcfg]
  rw [hsel]
  unfold auto_detect_preference detect_is_zink
  cases driver with
  | none => cases hm : maps_has_zink maps <;> simp [hm]
  | some d =>
    by_cases hd : d = "zink".toList
    · subst hd; simp
    · cases hm : maps_has_zink maps <;> simp [hd, hm]

/-- Witness for C6: empty config consulted, environment variable set to zink
forces BYPASS. -/
theorem C6_auto_detect_zink_preference_witness :
    select_preference "myapp".toList [] (some "zink".toList) none =
      preferred_presenter.BYPASS := by
  have h := (C6_auto_detect_zink_preference "myapp".toList []
      (some "zink".toList) none (by decide)).1
  exact h.mpr (Or.inl rfl)

/-- C8: on the Wayland-bypass path create_image_resources passes the fourcc
XRGB8888 to wl_buffer creation when the negotiated fourcc is ARGB8888,
XBGR8888 when it is ABGR8888, and every other fourcc unchanged. -/
theorem C8_bypass_fourcc_remap (fd : Int) (offset stride width height modifier : Nat)
    (hfd : 0 ≤ fd) :
    (∀ fourcc, ∃ req,
       (wayland_create_image_resources fd offset stride width height fourcc
          modifier).2 = some req ∧ req.fourcc = remap_bypass_fourcc fourcc) ∧
    remap_bypass_fourcc DRM_FORMAT_ARGB8888 = DRM_FORMAT_XRGB8888 ∧
    remap_bypass_fourcc DRM_FORMAT_ABGR8888 = DRM_FORMAT_XBGR8888 ∧
    (∀ fourcc, fourcc ≠ DRM_FORMAT_ARGB8888 → fourcc ≠ DRM_FORMAT_ABGR8888 →
       remap_bypass_fourcc fourcc = fourcc) := by
  have hlt : ¬ fd < 0 := not_lt.mpr hfd
  refine ⟨?_, by decide, by decide, ?_⟩
  · intro fourcc
    exact ⟨{ fd := fd, plane_idx := 0, offset := offset, stride := stride,
             modifier_hi := modifier / 2 ^ 32, modifier_lo := modifier % 2 ^ 32,
             width := width, height := height,
             fourcc := remap_bypass_fourcc fourcc, flags := 0 },
           by simp [wayland_create_image_resources, hlt], rfl⟩
  · intro fourcc h1 h2
    simp [remap_bypass_fourcc, h1, h2]

/-- Witness for C8 at a concrete DMA-BUF fd and an unrelated fourcc. -/
theorem C8_bypass_fourcc_remap_witness :
    remap_bypass_fourcc DRM_FORMAT_ARGB8888 = DRM_FORMAT_XRGB8888 ∧
    remap_bypass_fourcc 99 = 99 := by
  have h := C8_bypass_fourcc_remap 3 0 256 64 64 0 (by decide)
  exact ⟨h.2.1, h.2.2.2 99 (by decide) (by decide)⟩

/-- C9 counterexample: an image whose status is already INVALID but whose
Vulkan handle is non-null keeps its handle across destroy_image, so the claim
that one call always leaves the Vulkan handle null fails at this input. -/
theorem C9_destroy_image_counterexample :
    destroy_image 0 { status := ImageStatus.INVALID, image := 5, data := none } =
      ({ status := ImageStatus.INVALID, image := 5, data := none }, []) ∧
    (5 : Nat) ≠ 0 := by
  constructor
  · rfl
  · decide

/-- C9 amended: destroy_image on an image whose status is not INVALID leaves
status INVALID, a null Vulkan handle and a null data pointer; and on every
image a second call changes nothing and destroys no Vulkan object and no
backend artifact. -/
theorem C9_destroy_image_idempotent :
    (∀ (idx : Nat) (img : ImageState), img.status ≠ ImageStatus.INVALID →
       (destroy_image idx img).1 =
         { status := ImageStatus.INVALID, image := 0, data := none }) ∧
    (∀ (idx : Nat) (img : ImageState),
       destroy_image idx (destroy_image idx img).1 =
         ((destroy_image idx img).1, [])) := by
  constructor
  · intro idx img hst
    obtain ⟨st, handle, dta⟩ := img
    simp only at hst
    by_cases hh : handle = 0 <;> cases dta <;>
      simp [destroy_image, hst, hh]
  · intro idx img
    obtain ⟨st, handle, dta⟩ := img
    by_cases hst : st = ImageStatus.INVALID <;>
      by_cases hh : handle = 0 <;> cases dta <;>
        simp [destroy_image, hst, hh]

/-- Witness for C9 amended at a concrete live image. -/
theorem C9_destroy_image_idempotent_witness :
    (destroy_image 1 { status := ImageStatus.PRESENTED, image := 9,
                       data := some { artifact := 4 } }).1 =
      { status := ImageStatus.INVALID, image := 0, data := none } :=
  C9_destroy_image_idempotent.1 1
    { status := ImageStatus.PRESENTED, image := 9, data := some { artifact := 4 } }
    (by decide)

/-- C7 counterexample: at teardown of a swapchain with one live image holding
a presentation artifact, the Vulkan image handle is destroyed before the
backend artifact, so the claimed order (artifact first, Vulkan image only
then) fails on this input. -/
theorem C7_teardown_order_counterexample :
    swapchain_destructor_trace []
        [{ status := ImageStatus.PRESENTED, image := 7,
           data := some { artifact := 3 } }] =
      [TdEvent.stop_event_pump, TdEvent.destroy_vk_image 0,
       TdEvent.destroy_artifact 0, TdEvent.free_image_data 0] ∧
    ¬ ((swapchain_destructor_trace []
          [{ status := ImageStatus.PRESENTED, image := 7,
             data := some { artifact := 3 } }]).indexOf (TdEvent.destroy_artifact 0) <
       (swapchain_destructor_trace []
          [{ status := ImageStatus.PRESENTED, image := 7,
             data := some { artifact := 3 } }]).indexOf (TdEvent.destroy_vk_image 0)) := by
  constructor
  · rfl
  · decide

/-- C7 amended: the destructor first stops the event pump, then releases
every non-sentinel slot of the deferred-release ring, and only then destroys
the images; per image, the Vulkan image handle is destroyed first (when the
image is live and the handle non-null) and the backend presentation artifact
after it (when present), followed by freeing the image data. -/
theorem C7_teardown_order_amended :
    (∀ (ring : List Int) (imgs : List ImageState),
       swapchain_destructor_trace ring imgs =
         TdEvent.stop_event_pump ::
           (drain_deferred_ring ring ++ teardown_images imgs)) ∧
    (∀ (idx : Nat) (st : ImageStatus) (handle : Nat) (dta : Option ImageData),
       (destroy_image idx { status := st, image := handle, data := dta }).2 =
         (if st ≠ ImageStatus.INVALID ∧ handle ≠ 0
          then [TdEvent.destroy_vk_image idx] else []) ++
         (match dta with
          | some d => (if d.artifact ≠ 0 then [TdEvent.destroy_artifact idx]
                       else []) ++ [TdEvent.free_image_data idx]
          | none => [])) := by
  constructor
  · intro ring imgs; rfl
  · intro idx st handle dta
    by_cases hst : st = ImageStatus.INVALID <;>
      by_cases hh : handle = 0 <;> cases dta <;>
        simp [destroy_image, hst, hh]

/-- C5 counterexample: the process name matches no line of the first existing
routing file, yet the override bypass is taken from the second file; the
first existing file does not alone decide the outcome. -/
theorem C5_config_counterexample :
    config_override "myapp".toList
        [some ["otherapp dri3".toList], some ["myapp bypass".toList]] =
      preferred_presenter.BYPASS ∧
    preferred_presenter.BYPASS ≠ preferred_presenter.AUTO := by
  constructor
  · decide
  · decide

/-- C5 amended: the routing files are consulted in listed order; a file that
fails to open is skipped; a file whose scan yields a recognized presenter
decides and later files are not consulted; a file whose scan leaves the
preference AUTO (no line matched, or the matched line carried an
unrecognized presenter) does not stop the search, and later files are
consulted. -/
theorem C5_config_first_match_across_files :
    (∀ (proc : List Char) (rest : List (Option (List (List Char)))),
       config_override_scan proc preferred_presenter.AUTO (none :: rest) =
         config_override_scan proc preferred_presenter.AUTO rest) ∧
    (∀ (proc : List Char) (lines : List (List Char))
       (rest : List (Option (List (List Char)))),
       scan_config_file proc preferred_presenter.AUTO lines ≠
           preferred_presenter.AUTO →
       config_override_scan proc preferred_presenter.AUTO (some lines :: rest) =
         scan_config_file proc preferred_presenter.AUTO lines) ∧
    (∀ (proc : List Char) (lines : List (List Char))
       (rest : List (Option (List (List Char)))),
       scan_config_file proc preferred_presenter.AUTO lines =
           preferred_presenter.AUTO →
       config_override_scan proc preferred_presenter.AUTO (some lines :: rest) =
         config_override_scan proc preferred_presenter.AUTO rest) ∧
    (∀ (proc : List Char) (files : List (Option (List (List Char)))),
       ¬ proc.isEmpty →
       config_override proc files =
         config_override_scan proc preferred_presenter.AUTO files) := by
  refine ⟨?_, ?_, ?_, ?_⟩
  · intro proc rest; rfl
  · intro proc lines rest h
    simp [config_override_scan, h]
  · intro proc lines rest h
    simp [config_override_scan, h]
  · intro proc files h
    simp [config_override, h]

/-- Witness for C5 amended on concrete file contents: a deciding first file,
and a matchless first file followed by a deciding second file. -/
theorem C5_config_first_match_across_files_witness :
    config_override_scan "myapp".toList preferred_presenter.AUTO
        [some ["myapp shm".toList], some ["myapp bypass".toList]] =
      scan_config_file "myapp".toList preferred_presenter.AUTO
        ["myapp shm".toList] ∧
    config_override_scan "myapp".toList preferred_presenter.AUTO
        [some ["otherapp dri3".toList], some ["myapp bypass".toList]] =
      config_override_scan "myapp".toList preferred_presenter.AUTO
        [some ["myapp bypass".toList]] ∧
    config_override "myapp".toList [none] =
      config_override_scan "myapp".toList preferred_presenter.AUTO [none] := by
  refine ⟨?_, ?_, ?_⟩
  · exact C5_config_first_match_across_files.2.1 "myapp".toList
      ["myapp shm".toList] [some ["myapp bypass".toList]] (by decide)
  · exact C5_config_first_match_across_files.2.2.1 "myapp".toList
      ["otherapp dri3".toList] [some ["myapp bypass".toList]] (by decide)
  · exact C5_config_first_match_across_files.2.2.2 "myapp".toList [none]
      (by decide)

/-- First DRI3 present of the C4 counterexample run: the presenter rejects
the present because the image carries no pixmap (XCB_PIXMAP_NONE), yet
m_send_sbc is incremented. -/
def c4_first_present : SbcState × VkResult × Option Nat :=
  swapchain_dri3_present { send_sbc := 0, dri3 := { present_serial := 0 } }
    XCB_PIXMAP_NONE

/-- Second DRI3 present of the C4 counterexample run, on an image with a
valid pixmap. -/
def c4_second_present : SbcState × VkResult × Option Nat :=
  swapchain_dri3_present c4_first_present.1 7

/-- C4 counterexample: after one failed present, a successful present submits
a present_pixmap request whose serial (the presenter counter, here 1) is not
the send_sbc counter of the swapchain (here 2, and its uint32 truncation is
also 2); the request serial is not the swapchain send_sbc counter. -/
theorem C4_serial_counterexample :
    c4_first_present.2.1 = VkResult.VK_ERROR_SURFACE_LOST_KHR ∧
    c4_first_present.1.send_sbc = 1 ∧
    c4_second_present.2.1 = VkResult.VK_SUCCESS ∧
    c4_second_present.2.2 = some 1 ∧
    c4_second_present.1.send_sbc = 2 ∧
    c4_second_present.2.2 ≠ some (c4_second_present.1.send_sbc % 2 ^ 32) := by
  refine ⟨rfl, rfl, rfl, rfl, rfl, ?_⟩
  decide

/-- C4 amended: a successful DRI3 present submits a present_pixmap request
whose serial is the presenter-owned m_present_serial counter incremented
once per successful present (uint32 wrap); the serial argument computed from
the swapchain send_sbc is passed but ignored; while the presenter counter
has not wrapped, the serials carried by successive successful presents are
strictly increasing. The swapchain still increments send_sbc once per
present. -/
theorem C4_dri3_serial_monotone (st : Dri3PresState) (pixmap serial serial2 : Nat)
    (hpix : pixmap ≠ XCB_PIXMAP_NONE) :
    (dri3_present_image st true pixmap serial =
       ({ present_serial := (st.present_serial + 1) % 2 ^ 32 },
        VkResult.VK_SUCCESS, some ((st.present_serial + 1) % 2 ^ 32))) ∧
    (dri3_present_image st true pixmap serial =
       dri3_present_image st true pixmap serial2) ∧
    (st.present_serial + 1 < 2 ^ 32 →
       ∀ s, (dri3_present_image st true pixmap serial).2.2 = some s →
         st.present_serial < s) ∧
    (∀ (sb : SbcState) (p : Nat),
       (swapchain_dri3_present sb p).1.send_sbc = sb.send_sbc + 1) := by
  have hp : (pixmap == XCB_PIXMAP_NONE) = false := by
    simp [XCB_PIXMAP_NONE] at hpix ⊢
    exact hpix
  refine ⟨?_, ?_, ?_, ?_⟩
  · simp [dri3_present_image, hp]
  · simp [dri3_present_image]
  · intro hwrap s hs
    simp [dri3_present_image, hp] at hs
    omega
  · intro sb p
    simp [swapchain_dri3_present]

/-- Witness for C4 amended at a concrete presenter state and pixmap. -/
theorem C4_dri3_serial_monotone_witness :
    dri3_present_image { present_serial := 41 } true 7 42 =
      ({ present_serial := 42 }, VkResult.VK_SUCCESS, some 42) :=
  (C4_dri3_serial_monotone { present_serial := 41 } 7 42 9 (by decide)).1

/-- Unfolding of one successful deferred present at an explicit two-slot
ring. -/
theorem present_image_step_two_slots (a b : Int) (h sbc i : Nat) :
    present_image_step true
        { bypass_deferred := [a, b], bypass_defer_head := h, send_sbc := sbc }
        i VkResult.VK_SUCCESS =
      ({ bypass_deferred := [a, b].set h (Int.ofNat i),
         bypass_defer_head := (h + 1) % 2, send_sbc := sbc + 1 },
       freed_of ([a, b].getD h (-1))) := by
  simp [present_image_step, BYPASS_DEFER_FRAMES]

/-- Per-present freed lists of a run of successful deferred presents from an
arbitrary two-slot ring state: the first two presents release the two slot
values in head order, and present n thereafter releases the image presented
at n - 2. -/
theorem present_run_deferred_getD (idxs : List Nat) :
    ∀ (a b : Int) (h sbc n : Nat), h < 2 → n < idxs.length →
      ((present_run true { bypass_deferred := [a, b], bypass_defer_head := h,
                           send_sbc := sbc } idxs).2.getD n []) =
        if n = 0 then freed_of ([a, b].getD h (-1))
        else if n = 1 then freed_of ([a, b].getD ((h + 1) % 2) (-1))
        else [idxs.getD (n - 2) 0] := by
  induction idxs with
  | nil =>
    intro a b h sbc n _ hn
    simp at hn
  | cons i rest ih =>
    intro a b h sbc n hh hn
    have hcase : h = 0 ∨ h = 1 := by omega
    rcases hcase with rfl | rfl
    · cases n with
      | zero =>
        simp [present_run, present_image_step_two_slots]
      | succ m =>
        have hm : m < rest.length := by simpa using hn
        have key := ih (Int.ofNat i) b 1 (sbc + 1) m (by omega) hm
        have hset : [a, b].set 0 (Int.ofNat i) = [Int.ofNat i, b] := rfl
        simp only [present_run, present_image_step_two_slots, hset,
                   List.getD_cons_succ, Nat.reduceMod, Nat.reduceAdd]
        rw [key]
        cases m with
        | zero => simp
        | succ m2 =>
          cases m2 with
          | zero => simp [freed_of]
          | succ k => simp
    · cases n with
      | zero =>
        simp [present_run, present_image_step_two_slots]
      | succ m =>
        have hm : m < rest.length := by simpa using hn
        have key := ih a (Int.ofNat i) 0 (sbc + 1) m (by omega) hm
        have hset : [a, b].set 1 (Int.ofNat i) = [a, Int.ofNat i] := rfl
        simp only [present_run, present_image_step_two_slots, hset,
                   List.getD_cons_succ, Nat.reduceMod, Nat.reduceAdd]
        rw [key]
        cases m with
        | zero => simp
        | succ m2 =>
          cases m2 with
          | zero => simp [freed_of]
          | succ k => simp

/-- C1: with the deferred-release flag set (presenter is Wayland bypass or
DRI3), a successful present first releases the image index at the ring head
when that slot is non-sentinel, then writes the presented index into that
slot, then advances the head by one modulo BYPASS_DEFER_FRAMES = 2; as a
consequence, in a run of successful presents from the initial state the
image presented at present n is released during present n + 2, and the first
two presents release nothing. With the flag clear, the presented image is
released immediately after a successful present. -/
theorem C1_deferred_release_ring :
    (∀ (p : presenter_type),
       deferred_release_enabled p = true ↔
         (p = presenter_type.WAYLAND_BYPASS ∨ p = presenter_type.DRI3)) ∧
    (∀ (s : PresentState) (idx : Nat),
       present_image_step true s idx VkResult.VK_SUCCESS =
         ({ bypass_deferred :=
              s.bypass_deferred.set s.bypass_defer_head (Int.ofNat idx),
            bypass_defer_head :=
              (s.bypass_defer_head + 1) % BYPASS_DEFER_FRAMES,
            send_sbc := s.send_sbc + 1 },
          freed_of (s.bypass_deferred.getD s.bypass_defer_head (-1)))) ∧
    (∀ (s : PresentState) (idx : Nat),
       present_image_step false s idx VkResult.VK_SUCCESS =
         ({ s with send_sbc := s.send_sbc + 1 }, [idx])) ∧
    (∀ (idxs : List Nat) (n : Nat), n + 2 < idxs.length →
       (present_run true init_present_state idxs).2.getD (n + 2) [] =
         [idxs.getD n 0]) ∧
    (∀ (idxs : List Nat) (n : Nat), n < idxs.length → n < 2 →
       (present_run true init_present_state idxs).2.getD n [] = []) := by
  refine ⟨?_, ?_, ?_, ?_, ?_⟩
  · intro p; cases p <;> simp [deferred_release_enabled]
  · intro s idx; simp [present_image_step]
  · intro s idx; simp [present_image_step]
  · intro idxs n hn
    have key := present_run_deferred_getD idxs (-1) (-1) 0 0 (n + 2)
      (by omega) hn
    have h0 : ¬ n + 2 = 0 := by omega
    have h1 : ¬ n + 2 = 1 := by omega
    simp only [init_present_state] at key ⊢
    rw [key]
    simp [h0, h1]
  · intro idxs n hn hn2
    have key := present_run_deferred_getD idxs (-1) (-1) 0 0 n (by omega) hn
    simp only [init_present_state] at key ⊢
    rw [key]
    interval_cases n <;> simp [freed_of]

/-- Witness for C1 on a concrete four-present run: present 0 is released
during present 2, and present 0 itself releases nothing. -/
theorem C1_deferred_release_ring_witness :
    (present_run true init_present_state [5, 6, 7, 8]).2.getD 2 [] = [5] ∧
    (present_run true init_present_state [5, 6, 7, 8]).2.getD 0 [] = [] :=
  ⟨C1_deferred_release_ring.2.2.2.1 [5, 6, 7, 8] 0 (by decide),
   C1_deferred_release_ring.2.2.2.2 [5, 6, 7, 8] 0 (by decide) (by decide)⟩
